import Mathlib

set_option maxRecDepth 10000

/-!
# FortressConnection — verification of the panel-client state machine

Shallow embedding of `src/FortressConnection.py`. Bytes are `Nat` values
(0–255), byte strings are `List Nat`. The mutable attributes of the
`FortressConnection` object become the fields of `FortressState`; callback
invocations (`onErrorChange`, `onStatusChange`, `onAlarmChange`) become an
emitted `Event` list. Timers are modelled by the delay they were armed
with (`Option Nat`); arming a timer always replaces the previous one, as
in the source where the field is overwritten after `cancel()`.
-/

namespace Fortress

/-- `HEARTBEAT_INTERVAL = 4` from the source. -/
def HEARTBEAT_INTERVAL : Nat := 4

/-- `TIMEOUT_AFTER = 9` from the source. -/
def TIMEOUT_AFTER : Nat := 9

/-- `RETRY_AFTER_ERROR = 3` from the source. -/
def RETRY_AFTER_ERROR : Nat := 3

/-- The 9-byte `CONNECTION_IS_BOUND` literal (BindAck). -/
def CONNECTION_IS_BOUND : List Nat := [0x00, 0x00, 0x00, 0x03, 0x04, 0x00, 0x00, 0x09, 0x00]

/-- The 8-byte `HEARTBEAT_ACK` literal. -/
def HEARTBEAT_ACK : List Nat := [0x00, 0x00, 0x00, 0x03, 0x03, 0x00, 0x00, 0x16]

/-- The 13-byte `COMMAND` header literal. -/
def COMMAND : List Nat := [0x00, 0x00, 0x00, 0x03, 0x57, 0x00, 0x00, 0x90, 0x01, 0x00, 0x10, 0x00, 0x00]

/-- `ALARMING = b'\x01'`. -/
def ALARMING : List Nat := [0x01]

/-- Command code `DISARM = b'\x10'`. -/
def DISARM : List Nat := [0x10]

/-- Command code `ARM = b'\x00'`. -/
def ARM : List Nat := [0x00]

/-- Command code `STAY_ARM = b'\x20'`. -/
def STAY_ARM : List Nat := [0x20]

/-- `_to_bin_char(ch)` = `bytes(chr(ch), 'utf-8')`: the UTF-8 encoding of
code point `ch`, for `ch < 2048` (all call sites pass a byte, ≤ 255).
One byte below 128, two bytes (`0xC2..`/`0xC3..`) from 128 upward. -/
def to_bin_char (ch : Nat) : List Nat :=
  if ch < 128 then [ch] else [0xC0 + ch / 64, 0x80 + ch % 64]

/-- Python `int.from_bytes(bs, byteorder='big')`. -/
def fromBytesBE (bs : List Nat) : Nat :=
  bs.foldl (fun acc b => 256 * acc + b) 0

/-- Python slice `d[a:b]` on a byte string. -/
def pySlice (d : List Nat) (a b : Nat) : List Nat :=
  (d.drop a).take (b - a)

/-- Python `haystack.find(needle) != -1`: `needle` occurs as a contiguous
substring of `haystack`. -/
def containsSub (needle haystack : List Nat) : Bool :=
  (List.range (haystack.length + 1)).any fun i =>
    decide ((haystack.drop i).take needle.length = needle)

/-- The 24-bit big-endian integer `int.from_bytes(data[10:13], 'big')`
(`status_and_outlets` in `_process_update`). -/
def status_and_outlets (d : List Nat) : Nat :=
  fromBytesBE (pySlice d 10 13)

/-- `latest_arm_status = _to_bin_char(status_and_outlets >> 20 << 4)`. -/
def latest_arm_status (d : List Nat) : List Nat :=
  to_bin_char ((status_and_outlets d) >>> 20 <<< 4)

/-- `now_alarming = _to_bin_char(data[181]) == ALARMING`. -/
def now_alarming (d : List Nat) : Bool :=
  decide (to_bin_char (d.getD 181 0) = ALARMING)

/-- The integer zone value `_set_alarming` derives from the frame:
`int.from_bytes(_to_bin_char(data[89]), 'big')`. -/
def zoneVal (d : List Nat) : Nat :=
  fromBytesBE (to_bin_char (d.getD 89 0))

/-- The mutable attributes of a `FortressConnection` instance.
`timeout_timer`/`heartbeat_timer` hold the delay/interval the timer was
armed with, or `none` when cleared; `fortress_socket` records whether a
socket object is held; `arm_status` is the stored byte string or Python
`None`; `alarming` is the stored bool or Python `None`. -/
@[ext]
structure FortressState where
  timeout_timer : Option Nat
  fortress_socket : Bool
  arm_status : Option (List Nat)
  alarming : Option Bool
  heartbeat_timer : Option Nat
  all_good : Bool
  count : Nat
deriving DecidableEq, Repr

/-- The state set up by `__init__`. -/
def initState : FortressState :=
  { timeout_timer := none, fortress_socket := false, arm_status := none,
    alarming := none, heartbeat_timer := none, all_good := false, count := 0 }

/-- A callback invocation: `onErrorChange(isGood)`, `onStatusChange(status)`
or `onAlarmChange(isAlarming, zone)` (fired when the host registered the
corresponding handler). -/
inductive Event where
  | errorChange (isGood : Bool)
  | statusChange (status : List Nat)
  | alarmChange (isAlarming : Option Bool) (zone : Nat)
deriving DecidableEq, Repr

/-- `_set_all_good(isGood)`: store the flag and fire `onErrorChange`
(unconditionally). -/
def set_all_good (isGood : Bool) (s : FortressState) : FortressState × List Event :=
  ({ s with all_good := isGood }, [Event.errorChange isGood])

/-- `_clear_timers`: cancel both timers and null the fields. -/
def clear_timers (s : FortressState) : FortressState :=
  { s with timeout_timer := none, heartbeat_timer := none }

/-- `_reschedule_reconnect_asap`: health down, timers cleared, reconnect
timer armed with `RETRY_AFTER_ERROR`. -/
def reschedule_reconnect_asap (s : FortressState) : FortressState × List Event :=
  let r := set_all_good false s
  ({ clear_timers r.1 with timeout_timer := some RETRY_AFTER_ERROR }, r.2)

/-- `_reschedule_reconnect`: cancel any pending `timeout_timer` and arm a
fresh one with `TIMEOUT_AFTER`. -/
def reschedule_reconnect (s : FortressState) : FortressState :=
  { s with timeout_timer := some TIMEOUT_AFTER }

/-- `_set_alarming(cur_alarming, zone)`: convert the zone bytes with
`int.from_bytes`, store the flag and fire `onAlarmChange`
(unconditionally). -/
def set_alarming (cur : Option Bool) (zone : List Nat) (s : FortressState) :
    FortressState × List Event :=
  ({ s with alarming := cur }, [Event.alarmChange cur (fromBytesBE zone)])

/-- `_set_arm_status(cur_arm_status)`: store the byte string and fire
`onStatusChange` (only ever called when the value differs). -/
def set_arm_status (st : List Nat) (s : FortressState) : FortressState × List Event :=
  ({ s with arm_status := some st }, [Event.statusChange st])

/-- `_process_update(data)`: validation, heartbeat-ack detection, and
182-byte status-frame decoding, exactly as in the source. Python
truthiness makes `not self.alarming` mean `alarming ≠ some true`
(both `None` and `False` are falsy). -/
def process_update (data : List Nat) (s0 : FortressState) : FortressState × List Event :=
  if data = [] ∨ (data.length ≠ 182 ∧ data.length ≠ 8 ∧ data ≠ CONNECTION_IS_BOUND) then
    reschedule_reconnect_asap s0
  else
    let s1 := if containsSub HEARTBEAT_ACK data then reschedule_reconnect s0 else s0
    if data.length = 182 then
      let latest := latest_arm_status data
      let r2 := if some latest ≠ s1.arm_status then set_arm_status latest s1 else (s1, [])
      let r3 :=
        if some (now_alarming data) ≠ r2.1.alarming then
          if r2.1.alarming ≠ some true ∨ latest = DISARM then
            set_alarming (some (now_alarming data)) (to_bin_char (data.getD 89 0)) r2.1
          else (r2.1, [])
        else (r2.1, [])
      (r3.1, r2.2 ++ r3.2)
    else (s1, [])

/-- `_tear_down`: health down, counter reset, arm status cleared, alarm
cleared through the guarded setter with the default zone `b'\x00'`,
socket closed if open, both timers cleared. -/
def tear_down (s : FortressState) : FortressState × List Event :=
  let r1 := set_all_good false s
  let s2 := { r1.1 with count := 0, arm_status := none }
  let r3 := set_alarming none [0x00] s2
  let s4 := if r3.1.fortress_socket then { r3.1 with fortress_socket := false } else r3.1
  (clear_timers s4, r1.2 ++ r3.2)

/-- `sendCommand(msg)`: the single buffer handed to `_send_to_socket`,
`COMMAND + msg + b'\x00' * 78`. -/
def sendCommand (msg : List Nat) : List Nat :=
  COMMAND ++ msg ++ List.replicate 78 0

/-- A 182-byte all-zero status frame: arm bytes 10–12 zero (Armed), zone
byte 89 zero, alarm byte 181 zero (not alarming). -/
def zeroFrame : List Nat := List.replicate 182 0

/-- A 182-byte status frame that is all zero except the alarm flag byte at
offset 181, which is `0x01` (alarming); arm bytes decode to Armed. -/
def alarmFrame : List Nat := List.replicate 181 0 ++ [0x01]

/-- `alarmFrame` with the zone byte at offset 89 set to `0x80`. -/
def alarmFrameZone128 : List Nat := ((List.replicate 182 0).set 89 0x80).set 181 0x01

/-- The guard under which `_process_update` accepts a decoded alarm flag:
the new flag differs from the stored one, and the stored one is falsy
(`None`/`False`) or the frame decodes to Disarmed. -/
def alarmAccepted (d : List Nat) (s : FortressState) : Prop :=
  some (now_alarming d) ≠ s.alarming ∧
    (s.alarming ≠ some true ∨ latest_arm_status d = DISARM)

instance (d : List Nat) (s : FortressState) : Decidable (alarmAccepted d s) := by
  unfold alarmAccepted; infer_instance

/-- Closed form of `process_update` on a length-182 payload. -/
theorem process_update_182_eq (d : List Nat) (s : FortressState) (hl : d.length = 182) :
    process_update d s =
      ({ s with
          timeout_timer :=
            if containsSub HEARTBEAT_ACK d then some TIMEOUT_AFTER else s.timeout_timer,
          arm_status := some (latest_arm_status d),
          alarming :=
            if alarmAccepted d s then some (now_alarming d) else s.alarming },
        (if some (latest_arm_status d) ≠ s.arm_status then
          [Event.statusChange (latest_arm_status d)] else []) ++
        (if alarmAccepted d s then
          [Event.alarmChange (some (now_alarming d)) (zoneVal d)] else [])) := by
  have hne : d ≠ [] := by
    intro h; rw [h] at hl; exact absurd hl (by decide)
  by_cases hhb : containsSub HEARTBEAT_ACK d <;>
  by_cases hst : some (latest_arm_status d) ≠ s.arm_status <;>
  by_cases hdf : some (now_alarming d) ≠ s.alarming <;>
  by_cases hg : s.alarming ≠ some true ∨ latest_arm_status d = DISARM <;>
  simp_all [process_update, alarmAccepted, reschedule_reconnect, set_arm_status,
    set_alarming, zoneVal, hl, Prod.ext_iff, FortressState.ext_iff]

/-- Closed form of `process_update` on a valid payload that is not a
status frame (length 8 or the BindAck literal). -/
theorem process_update_not182_eq (d : List Nat) (s : FortressState)
    (hv : ¬(d = [] ∨ (d.length ≠ 182 ∧ d.length ≠ 8 ∧ d ≠ CONNECTION_IS_BOUND)))
    (hl : d.length ≠ 182) :
    process_update d s =
      (if containsSub HEARTBEAT_ACK d then reschedule_reconnect s else s, []) := by
  have hne : d ≠ [] := fun h => hv (Or.inl h)
  have hcond : ¬(d.length ≠ 182 ∧ d.length ≠ 8 ∧ d ≠ CONNECTION_IS_BOUND) :=
    fun h => hv (Or.inr h)
  have h8 : d.length = 8 ∨ d = CONNECTION_IS_BOUND := by
    by_cases h : d.length = 8
    · exact Or.inl h
    · by_cases hb : d = CONNECTION_IS_BOUND
      · exact Or.inr hb
      · exact absurd ⟨hl, h, hb⟩ hcond
  rcases h8 with h | h
  · simp [process_update, hne, h, hl]
  · subst h
    simp [process_update, CONNECTION_IS_BOUND]

/-- `_process_update` on an invalid payload takes the immediate-error path. -/
theorem process_update_invalid_eq (d : List Nat) (s : FortressState)
    (h182 : d.length ≠ 182) (h8 : d.length ≠ 8) (hb : d ≠ CONNECTION_IS_BOUND) :
    process_update d s = reschedule_reconnect_asap s := by
  unfold process_update
  rw [if_pos (Or.inr ⟨h182, h8, hb⟩)]

/-- C1 (counterexample): with stored alarming `false` and stored/decoded
ArmStatus Armed (so neither "stored alarming is true" nor "decoded status
Disarmed" holds), a frame reporting alarming=true is nonetheless accepted:
the stored flag becomes true and `onAlarmChange(true, 0)` fires —
contradicting the claim's "otherwise the stored alarming flag is unchanged
and no alarm callback fires". -/
theorem alarm_guard_claim_counterexample :
    some (now_alarming alarmFrame) ≠
      ({ initState with alarming := some false, arm_status := some ARM } :
        FortressState).alarming ∧
    ({ initState with alarming := some false, arm_status := some ARM } :
      FortressState).alarming ≠ some true ∧
    latest_arm_status alarmFrame ≠ DISARM ∧
    (process_update alarmFrame
      { initState with alarming := some false, arm_status := some ARM }).1.alarming =
      some true ∧
    Event.alarmChange (some true) 0 ∈
      (process_update alarmFrame
        { initState with alarming := some false, arm_status := some ARM }).2 := by
  decide

/-- C1 (amended): for a decoded 182-byte frame whose alarming flag differs
from the stored one, the client accepts and publishes the change iff either
the currently stored alarming flag is NOT true (false or unset), or the
ArmStatus decoded from the same frame is Disarmed; otherwise the stored
flag is unchanged and no alarm callback fires. -/
theorem alarm_guard_amended (d : List Nat) (s : FortressState)
    (hl : d.length = 182) (hdif : some (now_alarming d) ≠ s.alarming) :
    ((s.alarming ≠ some true ∨ latest_arm_status d = DISARM) →
      (process_update d s).1.alarming = some (now_alarming d) ∧
      Event.alarmChange (some (now_alarming d)) (zoneVal d) ∈ (process_update d s).2) ∧
    (¬(s.alarming ≠ some true ∨ latest_arm_status d = DISARM) →
      (process_update d s).1.alarming = s.alarming ∧
      ∀ a z, Event.alarmChange a z ∉ (process_update d s).2) := by
  rw [process_update_182_eq d s hl]
  constructor
  · intro hg
    have hacc : alarmAccepted d s := ⟨hdif, hg⟩
    simp [hacc]
  · intro hg
    have hacc : ¬alarmAccepted d s := fun h => hg h.2
    simp only [if_neg hacc]
    refine ⟨by trivial, ?_⟩
    intro a z hmem
    rw [List.append_nil] at hmem
    by_cases hst : some (latest_arm_status d) ≠ s.arm_status
    · rw [if_pos hst] at hmem
      simp at hmem
    · rw [if_neg hst] at hmem
      simp at hmem

/-- C1 (witness): concrete acceptance through the amended guard. -/
theorem alarm_guard_amended_witness :
    (process_update alarmFrame initState).1.alarming =
      some (now_alarming alarmFrame) ∧
    Event.alarmChange (some (now_alarming alarmFrame)) (zoneVal alarmFrame) ∈
      (process_update alarmFrame initState).2 :=
  (alarm_guard_amended alarmFrame initState (by decide) (by decide)).1 (by decide)

/-- C2: with stored alarming false and stored ArmStatus Armed, a frame again
reporting alarming=false fires no alarm callback, while a frame reporting
alarming=true stores true and fires `onAlarmChange(true, zone)`; with stored
alarming true, a frame reporting alarming=false is accepted iff that frame
decodes to Disarmed, and otherwise alarming stays true with no callback. -/
theorem alarm_transition_cases (s : FortressState) (d : List Nat) (hl : d.length = 182) :
    (s.alarming = some false → s.arm_status = some ARM →
      ((now_alarming d = false →
          (process_update d s).1.alarming = some false ∧
          ∀ a z, Event.alarmChange a z ∉ (process_update d s).2) ∧
        (now_alarming d = true →
          (process_update d s).1.alarming = some true ∧
          Event.alarmChange (some true) (zoneVal d) ∈ (process_update d s).2))) ∧
    (s.alarming = some true → now_alarming d = false →
      ((latest_arm_status d = DISARM →
          (process_update d s).1.alarming = some false ∧
          Event.alarmChange (some false) (zoneVal d) ∈ (process_update d s).2) ∧
        (latest_arm_status d ≠ DISARM →
          (process_update d s).1.alarming = some true ∧
          ∀ a z, Event.alarmChange a z ∉ (process_update d s).2))) := by
  have hmem_no : ∀ (hacc : ¬alarmAccepted d s),
      ∀ a z, Event.alarmChange a z ∉ (process_update d s).2 := by
    intro hacc a z hmem
    rw [process_update_182_eq d s hl] at hmem
    simp only [if_neg hacc, List.append_nil] at hmem
    by_cases hst : some (latest_arm_status d) ≠ s.arm_status
    · rw [if_pos hst] at hmem; simp at hmem
    · rw [if_neg hst] at hmem; simp at hmem
  have hmem_yes : ∀ (hacc : alarmAccepted d s),
      (process_update d s).1.alarming = some (now_alarming d) ∧
      Event.alarmChange (some (now_alarming d)) (zoneVal d) ∈ (process_update d s).2 := by
    intro hacc
    rw [process_update_182_eq d s hl]
    simp [hacc]
  constructor
  · intro hs _
    constructor
    · intro hn
      have hacc : ¬alarmAccepted d s := by
        intro h
        exact h.1 (by rw [hs, hn])
      refine ⟨?_, hmem_no hacc⟩
      rw [process_update_182_eq d s hl]
      simp [hacc, hs]
    · intro hn
      have hacc : alarmAccepted d s :=
        ⟨by rw [hs, hn]; simp, Or.inl (by rw [hs]; simp)⟩
      have h := hmem_yes hacc
      rw [hn] at h
      exact h
  · intro hs hn
    constructor
    · intro hdis
      have hacc : alarmAccepted d s :=
        ⟨by rw [hs, hn]; simp, Or.inr hdis⟩
      have h := hmem_yes hacc
      rw [hn] at h
      exact h
    · intro hdis
      have hacc : ¬alarmAccepted d s := by
        intro h
        rcases h.2 with h2 | h2
        · exact h2 hs
        · exact hdis h2
      refine ⟨?_, hmem_no hacc⟩
      rw [process_update_182_eq d s hl]
      simp [hacc, hs]

/-- C2 (witness): the three transitions on concrete frames. -/
theorem alarm_transition_cases_witness :
    ((process_update zeroFrame
        { initState with alarming := some false, arm_status := some ARM }).1.alarming =
        some false ∧
      ∀ a z, Event.alarmChange a z ∉
        (process_update zeroFrame
          { initState with alarming := some false, arm_status := some ARM }).2) ∧
    ((process_update alarmFrame
        { initState with alarming := some false, arm_status := some ARM }).1.alarming =
        some true ∧
      Event.alarmChange (some true) (zoneVal alarmFrame) ∈
        (process_update alarmFrame
          { initState with alarming := some false, arm_status := some ARM }).2) ∧
    ((process_update zeroFrame
        { initState with alarming := some true, arm_status := some ARM }).1.alarming =
        some true ∧
      ∀ a z, Event.alarmChange a z ∉
        (process_update zeroFrame
          { initState with alarming := some true, arm_status := some ARM }).2) :=
  ⟨((alarm_transition_cases
      { initState with alarming := some false, arm_status := some ARM }
      zeroFrame (by decide)).1 rfl rfl).1 (by decide),
   ((alarm_transition_cases
      { initState with alarming := some false, arm_status := some ARM }
      alarmFrame (by decide)).1 rfl rfl).2 (by decide),
   ((alarm_transition_cases
      { initState with alarming := some true, arm_status := some ARM }
      zeroFrame (by decide)).2 rfl (by decide)).2 (by decide)⟩

/-- C3: status decode interprets bytes 10–12 big-endian; the top 4 bits map
0 → Armed, 1 → Disarmed, 2 → StayArmed; shifting the nibble left by 4 gives
the one-byte command codes 0x00/0x10/0x20; the three concrete byte patterns
decode as claimed; and processing a 182-byte frame stores that decode. -/
theorem arm_status_decode (d : List Nat) (s : FortressState) (hl : d.length = 182) :
    (status_and_outlets d >>> 20 = 0 → latest_arm_status d = ARM) ∧
    (status_and_outlets d >>> 20 = 1 → latest_arm_status d = DISARM) ∧
    (status_and_outlets d >>> 20 = 2 → latest_arm_status d = STAY_ARM) ∧
    (status_and_outlets d >>> 20 = 0 → status_and_outlets d >>> 20 <<< 4 = 0x00) ∧
    (status_and_outlets d >>> 20 = 1 → status_and_outlets d >>> 20 <<< 4 = 0x10) ∧
    (status_and_outlets d >>> 20 = 2 → status_and_outlets d >>> 20 <<< 4 = 0x20) ∧
    (pySlice d 10 13 = [0x10, 0x00, 0x00] → latest_arm_status d = DISARM) ∧
    (pySlice d 10 13 = [0x00, 0x00, 0x00] → latest_arm_status d = ARM) ∧
    (pySlice d 10 13 = [0x20, 0x00, 0x00] → latest_arm_status d = STAY_ARM) ∧
    (process_update d s).1.arm_status = some (latest_arm_status d) := by
  refine ⟨?_, ?_, ?_, ?_, ?_, ?_, ?_, ?_, ?_, ?_⟩
  · intro h; unfold latest_arm_status; rw [h]; decide
  · intro h; unfold latest_arm_status; rw [h]; decide
  · intro h; unfold latest_arm_status; rw [h]; decide
  · intro h; rw [h]; decide
  · intro h; rw [h]; decide
  · intro h; rw [h]; decide
  · intro h; unfold latest_arm_status status_and_outlets; rw [h]; decide
  · intro h; unfold latest_arm_status status_and_outlets; rw [h]; decide
  · intro h; unfold latest_arm_status status_and_outlets; rw [h]; decide
  · rw [process_update_182_eq d s hl]

/-- C3 (witness): a frame with bytes 10–12 = {0x10,0x00,0x00} decodes to
Disarmed and processing stores the decode. -/
theorem arm_status_decode_witness :
    latest_arm_status ((List.replicate 182 0).set 10 0x10) = DISARM ∧
    (process_update ((List.replicate 182 0).set 10 0x10) initState).1.arm_status =
      some (latest_arm_status ((List.replicate 182 0).set 10 0x10)) := by
  have h := arm_status_decode ((List.replicate 182 0).set 10 0x10) initState (by decide)
  exact ⟨h.2.2.2.2.2.2.1 (by decide), h.2.2.2.2.2.2.2.2.2⟩

/-- C4 (code-bug evidence): for a frame whose zone byte at offset 89 is
0x80, the accepted alarm change passes zone = 49792 (the big-endian integer
of the two-byte UTF-8 encoding produced by `_to_bin_char`) to
`onAlarmChange`, not 128 as the claim requires. -/
theorem zone_decode_bug :
    alarmFrameZone128.getD 89 0 = 0x80 ∧
    zoneVal alarmFrameZone128 = 49792 ∧
    Event.alarmChange (some true) 49792 ∈
      (process_update alarmFrameZone128 { initState with alarming := some false }).2 ∧
    (49792 : Nat) ≠ 128 := by
  decide

/-- C5: every payload whose length is neither 182 nor 8 and which is not the
BindAck literal (the empty read included) takes the immediate-error path:
health false, heartbeat timer cleared, reconnect timer armed with
`RETRY_AFTER_ERROR = 3`, no status/alarm decoding, and only the health
callback fires. -/
theorem invalid_payload_error_path (d : List Nat) (s : FortressState)
    (h182 : d.length ≠ 182) (h8 : d.length ≠ 8) (hb : d ≠ CONNECTION_IS_BOUND) :
    process_update d s = reschedule_reconnect_asap s ∧
    (process_update d s).1.all_good = false ∧
    (process_update d s).1.heartbeat_timer = none ∧
    (process_update d s).1.timeout_timer = some RETRY_AFTER_ERROR ∧
    (process_update d s).1.arm_status = s.arm_status ∧
    (process_update d s).1.alarming = s.alarming ∧
    (process_update d s).2 = [Event.errorChange false] ∧
    RETRY_AFTER_ERROR = 3 := by
  have he := process_update_invalid_eq d s h182 h8 hb
  rw [he]
  simp [reschedule_reconnect_asap, set_all_good, clear_timers, RETRY_AFTER_ERROR]

/-- C5 (witness): a 3-byte junk payload takes the error path. -/
theorem invalid_payload_error_path_witness :
    process_update [1, 2, 3] initState = reschedule_reconnect_asap initState ∧
    (process_update [1, 2, 3] initState).1.timeout_timer = some RETRY_AFTER_ERROR ∧
    (process_update [1, 2, 3] initState).2 = [Event.errorChange false] := by
  have h := invalid_payload_error_path [1, 2, 3] initState (by decide) (by decide) (by decide)
  exact ⟨h.1, h.2.2.2.1, h.2.2.2.2.2.2.1⟩

/-- C6: every payload passing validation that contains the `HEARTBEAT_ACK`
literal as a substring (at any position) rearms the liveness/reconnect
timer to `TIMEOUT_AFTER = 9`, replacing whatever timer was pending. -/
theorem heartbeat_ack_rearm (d : List Nat) (s : FortressState)
    (hv : ¬(d = [] ∨ (d.length ≠ 182 ∧ d.length ≠ 8 ∧ d ≠ CONNECTION_IS_BOUND)))
    (hack : containsSub HEARTBEAT_ACK d = true) :
    (process_update d s).1.timeout_timer = some TIMEOUT_AFTER ∧ TIMEOUT_AFTER = 9 := by
  refine ⟨?_, rfl⟩
  by_cases hl : d.length = 182
  · rw [process_update_182_eq d s hl]
    simp [hack]
  · rw [process_update_not182_eq d s hv hl]
    simp [hack, reschedule_reconnect]

/-- C6 (witness): a bare `HEARTBEAT_ACK` payload rearms the deadline. -/
theorem heartbeat_ack_rearm_witness :
    (process_update HEARTBEAT_ACK initState).1.timeout_timer = some TIMEOUT_AFTER :=
  (heartbeat_ack_rearm HEARTBEAT_ACK initState (by decide) (by decide)).1

/-- C7: for every one-byte command code, `sendCommand` transmits a single
92-byte buffer: the fixed 13-byte `COMMAND` header, the code byte, then 78
zero bytes; in particular `sendCommand(ARM)` is the header, 0x00, 78 zeros. -/
theorem sendCommand_frame (c : Nat) :
    (sendCommand [c]).length = 92 ∧
    sendCommand [c] = COMMAND ++ [c] ++ List.replicate 78 0 ∧
    COMMAND.length = 13 ∧
    sendCommand ARM = COMMAND ++ [0x00] ++ List.replicate 78 0 := by
  refine ⟨?_, rfl, by decide, rfl⟩
  simp [sendCommand, COMMAND]

/-- C8 (counterexample): `__init__` leaves `all_good = false`, yet tearing
down from that state still invokes the health callback with `false` — a
callback invocation whose value equals the value already stored, which the
claim forbids. -/
theorem health_callback_repeat_counterexample :
    initState.all_good = false ∧
    Event.errorChange false ∈ (tear_down initState).2 := by
  decide

/-- C8 (amended): the status callback is invoked only on an actual change
(frame processing fires it only when the decoded status differs from the
stored one, and teardown never fires it), and within frame processing the
alarm callback likewise fires only when the decoded flag differs; but the
health and alarm setters fire their callbacks unconditionally, so teardown
always re-invokes both even when the stored values are unchanged. -/
theorem callbacks_on_change_amended (d : List Nat) (s : FortressState) :
    (∀ st, Event.statusChange st ∈ (process_update d s).2 → s.arm_status ≠ some st) ∧
    (∀ a z, Event.alarmChange a z ∈ (process_update d s).2 → s.alarming ≠ a) ∧
    (∀ st, Event.statusChange st ∉ (tear_down s).2) ∧
    Event.errorChange false ∈ (tear_down s).2 ∧
    Event.alarmChange none 0 ∈ (tear_down s).2 := by
  have htd : (tear_down s).2 = [Event.errorChange false, Event.alarmChange none 0] := by
    simp [tear_down, set_all_good, set_alarming, fromBytesBE]
  have hpu : ∀ e, e ∈ (process_update d s).2 →
      (e = Event.errorChange false ∨
        (∃ st, e = Event.statusChange st ∧ s.arm_status ≠ some st) ∨
        (∃ a z, e = Event.alarmChange a z ∧ s.alarming ≠ a)) := by
    intro e hmem
    by_cases hval : d = [] ∨ (d.length ≠ 182 ∧ d.length ≠ 8 ∧ d ≠ CONNECTION_IS_BOUND)
    · have he : process_update d s = reschedule_reconnect_asap s := by
        unfold process_update
        rw [if_pos hval]
      rw [he] at hmem
      simp [reschedule_reconnect_asap, set_all_good] at hmem
      exact Or.inl hmem
    · by_cases hl : d.length = 182
      · rw [process_update_182_eq d s hl] at hmem
        rw [List.mem_append] at hmem
        rcases hmem with h | h
        · by_cases hst : some (latest_arm_status d) ≠ s.arm_status
          · rw [if_pos hst] at h
            simp at h
            exact Or.inr (Or.inl ⟨latest_arm_status d, h, fun hc => hst hc.symm⟩)
          · rw [if_neg hst] at h
            simp at h
        · by_cases hacc : alarmAccepted d s
          · rw [if_pos hacc] at h
            simp at h
            refine Or.inr (Or.inr ⟨some (now_alarming d), zoneVal d, h, ?_⟩)
            exact fun hc => hacc.1 hc.symm
          · rw [if_neg hacc] at h
            simp at h
      · rw [process_update_not182_eq d s hval hl] at hmem
        simp at hmem
  refine ⟨?_, ?_, ?_, ?_, ?_⟩
  · intro st hmem
    rcases hpu _ hmem with h | ⟨st', h, hne⟩ | ⟨a, z, h, _⟩
    · exact absurd h (by simp)
    · obtain rfl : st' = st := by injection h.symm
      exact hne
    · exact absurd h (by simp)
  · intro a z hmem
    rcases hpu _ hmem with h | ⟨st, h, _⟩ | ⟨a', z', h, hne⟩
    · exact absurd h (by simp)
    · exact absurd h (by simp)
    · obtain rfl : a' = a := by injection h.symm
      exact hne
  · intro st
    rw [htd]
    simp
  · rw [htd]; simp
  · rw [htd]; simp

/-- C8 (witness): concrete only-on-change consequences at the initial
state, extracted through the amended theorem on `alarmFrame`. -/
theorem callbacks_on_change_amended_witness :
    initState.arm_status ≠ some ARM ∧ initState.alarming ≠ some true :=
  ⟨(callbacks_on_change_amended alarmFrame initState).1 ARM (by decide),
   (callbacks_on_change_amended alarmFrame initState).2.1 (some true) 0 (by decide)⟩

/-- C9 (counterexample): a second consecutive teardown from the initial
state still invokes the health and alarm callbacks — observable side
effects beyond the first invocation, which the claim rules out. -/
theorem teardown_repeat_counterexample :
    Event.errorChange false ∈ (tear_down (tear_down initState).1).2 ∧
    Event.alarmChange none 0 ∈ (tear_down (tear_down initState).1).2 := by
  decide

/-- C9 (amended): teardown is idempotent on the stored state — running it
twice leaves exactly the state one run leaves, and the second run changes
nothing and closes no socket — but the second run still re-invokes the
health callback (with false) and the alarm callback (with none, zone 0). -/
theorem teardown_state_idempotent (s : FortressState) :
    (tear_down (tear_down s).1).1 = (tear_down s).1 ∧
    (tear_down (tear_down s).1).2 =
      [Event.errorChange false, Event.alarmChange none 0] := by
  by_cases hs : s.fortress_socket <;>
    simp [tear_down, set_all_good, set_alarming, clear_timers, hs, fromBytesBE]

/-- C10: an 8-byte payload that does not contain the `HEARTBEAT_ACK`
literal is a complete no-op: the entire state (status, alarm flag, health,
counter, socket, both timers) is returned unchanged and no event is
emitted. -/
theorem len8_noop (d : List Nat) (s : FortressState)
    (hl : d.length = 8) (hna : containsSub HEARTBEAT_ACK d = false) :
    process_update d s = (s, []) := by
  have hne : d ≠ [] := by
    intro h; rw [h] at hl; exact absurd hl (by decide)
  simp [process_update, hne, hl, hna]

/-- C10 (witness): eight zero bytes are a no-op. -/
theorem len8_noop_witness :
    process_update (List.replicate 8 0) initState = (initState, []) :=
  len8_noop (List.replicate 8 0) initState (by decide) (by decide)

end Fortress
